import Mathlib

/-!
Shallow embedding of the product-listing core of the catalog backend
(src/main.py): the query builder, sort policy, pagination window and the
public-id projection helper, together with the seeded sample dataset.

Conventions of the embedding:
* Mongo regex predicates built by the code are always used with option i
  (case-insensitive).  The anchored pattern built from category and brand
  is modelled as case-insensitive whole-string equality, and the bare
  pattern built from search and the spec fields as case-insensitive
  substring containment; this is the literal (non-adversarial) reading of
  the patterns, matching section 9 of the specification, which treats
  metacharacter injection as out of scope for successful-match behavior.
* Python float parameters carry only exact decimal values here (prices in
  the repository are exact), modelled as rationals.
* A Mongo document is modelled two ways: products handled by the query
  engine use the structure ProductDoc, whose fields are the ones the
  queries, sorts and seed data touch (title, slug, category, brand, price,
  popularity, created_at, the queried spec sub-fields, tags); the
  public-id helper to_public_id, which inspects dynamic values, is
  modelled over an association-list document type BVal mirroring BSON.
* Python truthiness of an optional string parameter (if category: ...)
  is modelled by strTruthy: absent or empty contributes nothing.
-/

/-- Lower-case an ASCII letter, the effect of the i regex option on the
character sets appearing in the data. -/
def lowerChar (c : Char) : Char :=
  if 'A' ≤ c && c ≤ 'Z' then Char.ofNat (c.toNat + 32) else c

/-- The character list of a string, lower-cased. -/
def lowerChars (s : String) : List Char := s.data.map lowerChar

/-- Whether the first character list is a leading block of the second. -/
def chPrefixOf : List Char → List Char → Bool
  | [], _ => true
  | _ :: _, [] => false
  | a :: as, b :: bs => a == b && chPrefixOf as bs

/-- Whether the first character list occurs contiguously in the second. -/
def chInfixOf (pat : List Char) : List Char → Bool
  | [] => chPrefixOf pat []
  | b :: bs => chPrefixOf pat (b :: bs) || chInfixOf pat bs

/-- Case-insensitive substring test: the un-anchored regex with option i
built by list_products from search and spec filter values. -/
def ciContains (hay pat : String) : Bool := chInfixOf (lowerChars pat) (lowerChars hay)

/-- Case-insensitive whole-string equality: the anchored regex with
option i built by list_products from category and brand. -/
def ciEq (v s : String) : Bool := lowerChars v == lowerChars s

/-- The queried sub-fields of the specs sub-document (schemas.py makes
each of them an optional string). -/
structure SpecsDoc where
  ram : Option String := none
  storage : Option String := none
  battery : Option String := none
  camera : Option String := none
  os : Option String := none
deriving DecidableEq

/-- A stored product document, carrying the fields that the query
builder, the sort clauses and the seed data use. -/
structure ProductDoc where
  _id : Nat
  title : String
  slug : String
  category : String
  brand : String
  price : ℚ
  popularity : Int
  created_at : Int
  specs : SpecsDoc
  tags : List String
deriving DecidableEq

/-- The string rendering of a store-internal identifier, str of an
ObjectId in the source. -/
def oidString (n : Nat) : String := "oid-" ++ toString n

/-- A product as returned by the endpoint: the internal identifier
replaced by the public string id, all other fields carried over
(the effect of to_public_id on a product document). -/
structure PubProduct where
  id : String
  title : String
  slug : String
  category : String
  brand : String
  price : ℚ
  popularity : Int
  created_at : Int
  specs : SpecsDoc
  tags : List String
deriving DecidableEq

/-- Projection of a product document to its public form. -/
def toPublicDoc (d : ProductDoc) : PubProduct :=
  { id := oidString d._id, title := d.title, slug := d.slug,
    category := d.category, brand := d.brand, price := d.price,
    popularity := d.popularity, created_at := d.created_at,
    specs := d.specs, tags := d.tags }

/-- The query parameters of GET /api/products (signature of
list_products, src/main.py lines 89 to 102, with their defaults). -/
structure ListParams where
  category : Option String := none
  search : Option String := none
  brand : Option String := none
  minPrice : Option ℚ := none
  maxPrice : Option ℚ := none
  ram : Option String := none
  storage : Option String := none
  battery : Option String := none
  camera : Option String := none
  os_name : Option String := none
  sort : Option String := none
  page : Int := 1
  limit : Int := 20
deriving DecidableEq

/-- The composite query document q built by list_products: one optional
predicate per key it may set, in insertion order.  priceGte and priceLte
together are the single range predicate on price; orSearch is the
three-way OR group on title, brand and tags. -/
structure MQuery where
  category : Option String := none
  brand : Option String := none
  priceGte : Option ℚ := none
  priceLte : Option ℚ := none
  ram : Option String := none
  storage : Option String := none
  battery : Option String := none
  camera : Option String := none
  os : Option String := none
  orSearch : Option String := none
deriving DecidableEq

/-- Python truthiness of an optional string parameter: None and the empty
string both fail an if test, so neither contributes a predicate. -/
def strTruthy : Option String → Option String
  | some s => if s = "" then none else some s
  | none => none

/-- The query construction of list_products (src/main.py lines 104 to
130): string parameters are guarded by truthiness, the price bounds only
by is-not-None. -/
def build_query (p : ListParams) : MQuery :=
  { category := strTruthy p.category
    brand := strTruthy p.brand
    priceGte := p.minPrice
    priceLte := p.maxPrice
    ram := strTruthy p.ram
    storage := strTruthy p.storage
    battery := strTruthy p.battery
    camera := strTruthy p.camera
    os := strTruthy p.os_name
    orSearch := strTruthy p.search }

/-- A regex predicate against an optional nested spec field: a missing
field matches nothing. -/
def specMatch (field : Option String) (pat : String) : Bool :=
  match field with
  | some s => ciContains s pat
  | none => false

/-- The OR group built from a non-empty search value: title, brand or
tags contains the value case-insensitively (a regex against an array
field matches when some element matches). -/
def searchHit (s : String) (d : ProductDoc) : Bool :=
  ciContains d.title s || ciContains d.brand s || d.tags.any (fun t => ciContains t s)

/-- Evaluation of the composite query against a stored document: every
present predicate must hold (Mongo ANDs the keys of a query document). -/
def matchesQ (q : MQuery) (d : ProductDoc) : Bool :=
  q.category.all (fun c => ciEq d.category c) &&
  q.brand.all (fun b => ciEq d.brand b) &&
  q.priceGte.all (fun m => decide (m ≤ d.price)) &&
  q.priceLte.all (fun m => decide (d.price ≤ m)) &&
  q.ram.all (fun s => specMatch d.specs.ram s) &&
  q.storage.all (fun s => specMatch d.specs.storage s) &&
  q.battery.all (fun s => specMatch d.specs.battery s) &&
  q.camera.all (fun s => specMatch d.specs.camera s) &&
  q.os.all (fun s => specMatch d.specs.os s) &&
  q.orSearch.all (fun s => searchHit s d)

/-- The sort clause selection of list_products (src/main.py lines 135 to
143): a named field and a direction, or none. -/
def sortClause (srt : Option String) : Option (String × Int) :=
  if srt = some "popularity" then some ("popularity", -1)
  else if srt = some "latest" then some ("created_at", -1)
  else if srt = some "price_asc" then some ("price", 1)
  else if srt = some "price_desc" then some ("price", -1)
  else none

/-- The sort key a clause field names on a document. -/
def keyOf (f : String) (d : ProductDoc) : ℚ :=
  if f = "popularity" then (d.popularity : ℚ)
  else if f = "created_at" then (d.created_at : ℚ)
  else d.price

/-- Insert an element into a list in front of the first element it
precedes according to the comparison. -/
def insertLe (le : ProductDoc → ProductDoc → Bool) (a : ProductDoc) :
    List ProductDoc → List ProductDoc
  | [] => [a]
  | b :: t => if le a b then a :: b :: t else b :: insertLe le a t

/-- Insertion sort; models the ordering the cursor sort applies (the
store leaves the relative order of equal keys unspecified, and the
claims about sorting use pairwise-distinct keys). -/
def insSort (le : ProductDoc → ProductDoc → Bool) : List ProductDoc → List ProductDoc
  | [] => []
  | a :: t => insertLe le a (insSort le t)

/-- Apply a sort clause to the matched records; no clause leaves the
collection's natural order untouched. -/
def applySort (sc : Option (String × Int)) (l : List ProductDoc) : List ProductDoc :=
  match sc with
  | none => l
  | some (f, dir) =>
      insSort (fun a b =>
        if dir = 1 then decide (keyOf f a ≤ keyOf f b)
        else decide (keyOf f b ≤ keyOf f a)) l

/-- The cursor limit: limit 0 imposes no bound, a non-zero limit keeps
that many records (a negative argument acts as its absolute value). -/
def applyLimit (n : Int) (l : List ProductDoc) : List ProductDoc :=
  if n = 0 then l else l.take n.natAbs

/-- The number of pages covering n records at page size L. -/
def numPages (n L : Nat) : Nat := (n + L - 1) / L

/-- The JSON body returned by GET /api/products. -/
structure PageResult where
  items : List PubProduct
  page : Int
  limit : Int
  total : Nat
deriving DecidableEq

/-- The product-listing operation (src/main.py lines 89 to 152): build
the composite query, compute the clamped skip offset, find and sort the
matching records, window them with skip and limit, project each to its
public form, and count all matches for total. -/
def list_products (p : ListParams) (coll : List ProductDoc) : PageResult :=
  let q := build_query p
  let skip : Int := max 0 ((p.page - 1) * p.limit)
  let matched := coll.filter (fun d => matchesQ q d)
  let sorted := applySort (sortClause p.sort) matched
  let window := applyLimit p.limit (sorted.drop skip.toNat)
  { items := window.map toPublicDoc, page := p.page, limit := p.limit,
    total := matched.length }

/-- Seed product one (src/main.py lines 276 to 303); identifier and
creation stamp reflect first insertion. -/
def iphone15pro : ProductDoc :=
  { _id := 1, title := "iPhone 15 Pro", slug := "iphone-15-pro",
    category := "mobile", brand := "Apple", price := 999,
    popularity := 100, created_at := 1,
    specs := { ram := some "8GB", storage := some "128GB",
               battery := some "3274 mAh", camera := some "48MP + 12MP",
               os := some "iOS 17" },
    tags := ["flagship", "ios", "premium"] }

/-- Seed product two (src/main.py lines 304 to 329). -/
def galaxyS23 : ProductDoc :=
  { _id := 2, title := "Samsung Galaxy S23", slug := "galaxy-s23",
    category := "mobile", brand := "Samsung", price := 799,
    popularity := 90, created_at := 2,
    specs := { ram := some "8GB", storage := some "256GB",
               battery := some "3900 mAh",
               camera := some "50MP + 10MP + 12MP",
               os := some "Android 13" },
    tags := ["android", "flagship"] }

/-- Seed product three (src/main.py lines 330 to 355). -/
def oneplus11 : ProductDoc :=
  { _id := 3, title := "OnePlus 11", slug := "oneplus-11",
    category := "mobile", brand := "OnePlus", price := 699,
    popularity := 80, created_at := 3,
    specs := { ram := some "12GB", storage := some "256GB",
               battery := some "5000 mAh",
               camera := some "50MP + 48MP + 32MP",
               os := some "Android 13" },
    tags := ["value", "android"] }

/-- The seeded collection in insertion order (admin_seed). -/
def sample_products : List ProductDoc := [iphone15pro, galaxyS23, oneplus11]

/-- A dynamic BSON-like value, the input type of the to_public_id helper:
an internal identifier, a string, an integer, an array, or a nested
document (an ordered key-value list, as Python dicts preserve insertion
order). -/
inductive BVal where
  | oid : Nat → BVal
  | str : String → BVal
  | intVal : Int → BVal
  | arr : List BVal → BVal
  | doc : List (String × BVal) → BVal

/-- Python truthiness of a dynamic value: identifiers are always truthy;
empty strings, zero and empty containers are falsy. -/
def truthy : BVal → Bool
  | .oid _ => true
  | .str s => !(s == "")
  | .intVal n => !(n == 0)
  | .arr l => !l.isEmpty
  | .doc l => !l.isEmpty

/-- The str rendering of a dynamic value (only the identifier case is
ever exercised by the claims). -/
def bvalStr : BVal → String
  | .oid n => oidString n
  | .str s => s
  | .intVal n => toString n
  | .arr _ => "array"
  | .doc _ => "document"

/-- First value stored under a key. -/
def dictGet : List (String × BVal) → String → Option BVal
  | [], _ => none
  | (k2, v) :: t, k => if k2 = k then some v else dictGet t k

/-- Drop a key from a document, the effect of dict pop. -/
def dictRemove (l : List (String × BVal)) (k : String) : List (String × BVal) :=
  l.filter (fun kv => kv.1 != k)

/-- Store a value under a key: replace in place when the key exists,
append otherwise (Python dict assignment). -/
def dictSet : List (String × BVal) → String → BVal → List (String × BVal)
  | [], k, v => [(k, v)]
  | (k2, v2) :: t, k, v =>
      if k2 = k then (k2, v) :: t else (k2, v2) :: dictSet t k v

/-- The per-entry conversion of the loop in to_public_id: a value that is
itself an identifier becomes its string; any other value, including
containers holding identifiers deeper inside, is left unchanged. -/
def convTop : BVal → BVal
  | .oid n => .str (oidString n)
  | v => v

/-- The public-id projection helper (src/main.py lines 24 to 34): an
empty document passes through; a truthy _id is popped and re-stored as
the string field id; then every top-level value that is an identifier is
converted to its string. -/
def to_public_id (d : List (String × BVal)) : List (String × BVal) :=
  if d.isEmpty then d
  else
    let d1 :=
      match dictGet d "_id" with
      | some v => if truthy v then dictSet (dictRemove d "_id") "id" (.str (bvalStr v)) else d
      | none => d
    d1.map (fun kv => (kv.1, convTop kv.2))

/-- Whether a value is an internal identifier. -/
def isOidB : BVal → Bool
  | .oid _ => true
  | _ => false

mutual
/-- Whether a value contains no internal identifier anywhere inside. -/
def oidFree : BVal → Bool
  | .oid _ => false
  | .str _ => true
  | .intVal _ => true
  | .arr l => oidFreeList l
  | .doc l => oidFreeDict l

/-- oidFree over the elements of an array. -/
def oidFreeList : List BVal → Bool
  | [] => true
  | v :: t => oidFree v && oidFreeList t

/-- oidFree over the values of a document. -/
def oidFreeDict : List (String × BVal) → Bool
  | [] => true
  | (_, v) :: t => oidFree v && oidFreeDict t
end

/-- A record as the store would return it for a product that carries a
reference list and an owner sub-document: identifiers at top level, in a
list, and in a nested document. -/
def exDoc : List (String × BVal) :=
  [("_id", .oid 1), ("owner", .doc [("_id", .oid 2)]), ("refs", .arr [.oid 3])]

/-! Supporting lemmas. -/

theorem strTruthy_none : strTruthy none = none := rfl

theorem applySort_nil (sc : Option (String × Int)) : applySort sc [] = [] := by
  rcases sc with _ | ⟨f, dir⟩ <;> rfl

theorem applyLimit_nil (n : Int) : applyLimit n [] = [] := by
  unfold applyLimit
  split <;> simp

theorem list_products_no_match (p : ListParams) (coll : List ProductDoc)
    (h : ∀ d ∈ coll, matchesQ (build_query p) d = false) :
    list_products p coll = { items := [], page := p.page, limit := p.limit, total := 0 } := by
  have hf : coll.filter (fun d => matchesQ (build_query p) d) = [] :=
    List.filter_eq_nil_iff.mpr (by simpa using h)
  simp [list_products, hf, applySort_nil, applyLimit_nil]

/-! Claim theorems. -/

/-- C5: with no filter field set, the composite query matches every
record and total is the full collection count. -/
theorem no_filters_match_all :
    ∀ (srt : Option String) (pg lim : Int) (coll : List ProductDoc),
      (∀ d, matchesQ (build_query { sort := srt, page := pg, limit := lim }) d = true) ∧
      (list_products { sort := srt, page := pg, limit := lim } coll).total = coll.length := by
  intro srt pg lim coll
  refine ⟨fun d => rfl, ?_⟩
  have hf : coll.filter
      (fun d => matchesQ (build_query { sort := srt, page := pg, limit := lim }) d) = coll :=
    List.filter_eq_self.mpr (fun a _ => rfl)
  simp [list_products, hf]

/-- C10: an empty-string value for any string filter parameter builds the
same query as an absent one, while a zero price bound still contributes
its half of the price range predicate. -/
theorem empty_string_vs_zero (p : ListParams) :
    build_query { p with category := some "" } = build_query { p with category := none } ∧
    build_query { p with brand := some "" } = build_query { p with brand := none } ∧
    build_query { p with ram := some "" } = build_query { p with ram := none } ∧
    build_query { p with storage := some "" } = build_query { p with storage := none } ∧
    build_query { p with battery := some "" } = build_query { p with battery := none } ∧
    build_query { p with camera := some "" } = build_query { p with camera := none } ∧
    build_query { p with os_name := some "" } = build_query { p with os_name := none } ∧
    build_query { p with search := some "" } = build_query { p with search := none } ∧
    (build_query { p with minPrice := some 0 }).priceGte = some 0 ∧
    (build_query { p with maxPrice := some 0 }).priceLte = some 0 := by
  refine ⟨rfl, rfl, rfl, rfl, rfl, rfl, rfl, rfl, rfl, rfl⟩

/-- C9: a filter that matches no record is not an error: the operation
returns normally with empty items and total zero. -/
theorem no_matches_ok (p : ListParams) (coll : List ProductDoc)
    (h : ∀ d ∈ coll, matchesQ (build_query p) d = false) :
    list_products p coll = { items := [], page := p.page, limit := p.limit, total := 0 } :=
  list_products_no_match p coll h

/-- Witness for C9: the brand filter Nokia matches nothing in the seeded
collection, and the operation returns empty items with total zero. -/
theorem no_matches_ok_witness :
    (∀ d ∈ sample_products, matchesQ (build_query { brand := some "Nokia" }) d = false) ∧
    list_products { brand := some "Nokia" } sample_products =
      { items := [], page := 1, limit := 20, total := 0 } :=
  ⟨by decide, no_matches_ok { brand := some "Nokia" } sample_products (by decide)⟩

/-- C6: an inverted price range (minPrice above maxPrice) yields empty
items and total zero, the single range predicate on price being
unsatisfiable. -/
theorem inverted_price_range_empty (p : ListParams) (coll : List ProductDoc) (mn mx : ℚ)
    (hmn : p.minPrice = some mn) (hmx : p.maxPrice = some mx) (hlt : mx < mn) :
    (list_products p coll).items = [] ∧ (list_products p coll).total = 0 := by
  have h : ∀ d ∈ coll, matchesQ (build_query p) d = false := by
    intro d _
    have hg : (build_query p).priceGte = some mn := by simp [build_query, hmn]
    have hl : (build_query p).priceLte = some mx := by simp [build_query, hmx]
    rcases le_or_lt mn d.price with h1 | h1
    · have h2 : ¬ (d.price ≤ mx) := fun hle => absurd (le_trans h1 hle) (not_le.mpr hlt)
      simp [matchesQ, hg, hl, h2]
    · simp [matchesQ, hg, not_le.mpr h1]
  rw [list_products_no_match p coll h]
  exact ⟨rfl, rfl⟩

/-- Witness for C6: bounds 100 and 50 on the seeded collection give empty
items and total zero. -/
theorem inverted_price_range_empty_witness :
    (({ minPrice := some 100, maxPrice := some 50 } : ListParams).minPrice = some 100) ∧
    (({ minPrice := some 100, maxPrice := some 50 } : ListParams).maxPrice = some 50) ∧
    (50 : ℚ) < 100 ∧
    (list_products { minPrice := some 100, maxPrice := some 50 } sample_products).items = [] ∧
    (list_products { minPrice := some 100, maxPrice := some 50 } sample_products).total = 0 := by
  refine ⟨rfl, rfl, by decide, ?_, ?_⟩
  · exact (inverted_price_range_empty _ sample_products 100 50 rfl rfl (by decide)).1
  · exact (inverted_price_range_empty _ sample_products 100 50 rfl rfl (by decide)).2

/-- C1: the composite predicate factors as the predicate of the same
criteria without search, ANDed with the three-way OR group (title, brand
or tags contains the search value case-insensitively) when search is
non-empty; an empty or absent search adds no predicate. -/
theorem search_or_group (p : ListParams) (d : ProductDoc) :
    matchesQ (build_query p) d =
      (matchesQ (build_query { p with search := none }) d &&
        (match strTruthy p.search with
         | some s => searchHit s d
         | none => true)) := by
  cases h : strTruthy p.search <;>
    simp [matchesQ, build_query, h, strTruthy_none, Bool.and_assoc]

/-- C7: a present non-empty brand (respectively category) filter factors
out of the composite predicate as a case-insensitive whole-string
equality on the field, ANDed with the remaining criteria; the equality
accepts any casing of the exact value and rejects a field that merely
contains the value as a proper substring. -/
theorem anchored_ci_exact :
    (∀ (p : ListParams) (d : ProductDoc) (b : String), p.brand = some b → b ≠ "" →
      matchesQ (build_query p) d =
        (ciEq d.brand b && matchesQ (build_query { p with brand := none }) d)) ∧
    (∀ (p : ListParams) (d : ProductDoc) (c : String), p.category = some c → c ≠ "" →
      matchesQ (build_query p) d =
        (ciEq d.category c && matchesQ (build_query { p with category := none }) d)) ∧
    (ciEq "Apple" "apple" = true ∧ ciEq "Apple" "APPLE" = true ∧
      ciEq "Apple" "ApPlE" = true) ∧
    (ciContains "Apple Inc" "apple" = true ∧ ciEq "Apple Inc" "apple" = false) := by
  refine ⟨?_, ?_, by decide, by decide⟩
  · intro p d b hb hbne
    have ht : strTruthy p.brand = some b := by simp [strTruthy, hb, hbne]
    simp [matchesQ, build_query, ht, strTruthy_none, Bool.and_assoc, Bool.and_left_comm,
      Bool.and_comm]
  · intro p d c hc hcne
    have ht : strTruthy p.category = some c := by simp [strTruthy, hc, hcne]
    simp [matchesQ, build_query, ht, strTruthy_none, Bool.and_assoc, Bool.and_left_comm,
      Bool.and_comm]

/-- Witness for C7: the lower-cased brand filter apple factors out of the
query as the case-insensitive equality test on the seeded Apple record. -/
theorem anchored_ci_exact_witness :
    (({ brand := some "apple" } : ListParams).brand = some "apple") ∧
    ("apple" ≠ "") ∧
    matchesQ (build_query { brand := some "apple" }) iphone15pro =
      (ciEq iphone15pro.brand "apple" &&
        matchesQ (build_query { (({ brand := some "apple" } : ListParams)) with brand := none })
          iphone15pro) :=
  ⟨rfl, by decide,
    anchored_ci_exact.1 { brand := some "apple" } iphone15pro "apple" rfl (by decide)⟩

/-- C8: price-ascending sort over the unfiltered seeded collection
returns OnePlus 11 at 699, Galaxy S23 at 799 and iPhone 15 Pro at 999 in
that order, while an absent sort policy applies no reordering at all. -/
theorem sort_price_asc_order :
    ((list_products { sort := some "price_asc" } sample_products).items.map
        (fun d => (d.title, d.price)) =
      [("OnePlus 11", (699 : ℚ)), ("Samsung Galaxy S23", 799), ("iPhone 15 Pro", 999)]) ∧
    ((list_products {} sample_products).items.map (fun d => d.title) =
      ["iPhone 15 Pro", "Samsung Galaxy S23", "OnePlus 11"]) ∧
    (∀ l : List ProductDoc, applySort (sortClause none) l = l) := by
  refine ⟨by decide, by decide, fun l => rfl⟩

/-- Counterexample to C3 as stated: with a negative limit the clamped
offset of page 0 is not 0, and the returned window differs from that of
page 1 on the seeded collection (a limit of -1 keeps one record, so page
0 skips one record while page 1 skips none). -/
theorem page_clamp_cex :
    (max 0 ((({ page := 0, limit := -1 } : ListParams).page - 1) *
        ({ page := 0, limit := -1 } : ListParams).limit) ≠ 0) ∧
    (list_products { page := 0, limit := -1 } sample_products).items ≠
      (list_products { page := 1, limit := -1 } sample_products).items :=
  ⟨by decide, by decide⟩

/-- C3 amended: for every nonnegative limit, a page number at most 1
gives a clamped skip offset of 0 and a window identical to that of
page 1. -/
theorem page_clamp_amended (p : ListParams) (coll : List ProductDoc)
    (hlim : 0 ≤ p.limit) (hpg : p.page ≤ 1) :
    max 0 ((p.page - 1) * p.limit) = 0 ∧
    (list_products p coll).items = (list_products { p with page := 1 } coll).items := by
  have hs : (p.page - 1) * p.limit ≤ 0 :=
    mul_nonpos_of_nonpos_of_nonneg (by omega) hlim
  have h0 : max 0 ((p.page - 1) * p.limit) = 0 := max_eq_left hs
  refine ⟨h0, ?_⟩
  show (applyLimit p.limit ((applySort (sortClause p.sort)
      (coll.filter (fun d => matchesQ (build_query p) d))).drop
        (max 0 ((p.page - 1) * p.limit)).toNat)).map toPublicDoc =
    (applyLimit p.limit ((applySort (sortClause p.sort)
      (coll.filter (fun d => matchesQ (build_query p) d))).drop
        (max 0 (((1 : Int) - 1) * p.limit)).toNat)).map toPublicDoc
  rw [h0]
  norm_num

/-- Witness for C3 amended: page 0 with the default limit 20 returns the
page-1 window of the seeded collection. -/
theorem page_clamp_amended_witness :
    ((0 : Int) ≤ ({ page := 0 } : ListParams).limit) ∧
    (({ page := 0 } : ListParams).page ≤ 1) ∧
    (max 0 ((({ page := 0 } : ListParams).page - 1) * ({ page := 0 } : ListParams).limit) = 0 ∧
      (list_products { page := 0 } sample_products).items =
        (list_products { ({ page := 0 } : ListParams) with page := 1 } sample_products).items) :=
  ⟨by decide, by decide,
    page_clamp_amended { page := 0 } sample_products (by decide) (by decide)⟩

/-! Dictionary lemmas for the public-id projection. -/

theorem dictGet_map_conv (l : List (String × BVal)) (k : String) (f : BVal → BVal) :
    dictGet (l.map (fun kv => (kv.1, f kv.2))) k = (dictGet l k).map f := by
  induction l with
  | nil => rfl
  | cons kv t ih =>
    rcases kv with ⟨k2, v⟩
    by_cases h : k2 = k <;> simp [dictGet, h, ih]

theorem dictGet_dictSet_self (l : List (String × BVal)) (k : String) (v : BVal) :
    dictGet (dictSet l k v) k = some v := by
  induction l with
  | nil => simp [dictSet, dictGet]
  | cons kv t ih =>
    rcases kv with ⟨k2, v2⟩
    by_cases h : k2 = k <;> simp [dictSet, dictGet, h, ih]

theorem dictGet_dictSet_ne (l : List (String × BVal)) (k k2 : String) (v : BVal)
    (h : k ≠ k2) :
    dictGet (dictSet l k v) k2 = dictGet l k2 := by
  induction l with
  | nil => simp [dictSet, dictGet, h]
  | cons kv t ih =>
    rcases kv with ⟨k3, v3⟩
    by_cases h3 : k3 = k
    · subst h3
      simp [dictSet, dictGet, h, ih]
    · by_cases h4 : k3 = k2 <;> simp [dictSet, dictGet, h3, h4, ih, Ne.symm h]

theorem dictGet_dictRemove_self (l : List (String × BVal)) (k : String) :
    dictGet (dictRemove l k) k = none := by
  induction l with
  | nil => rfl
  | cons kv t ih =>
    rcases kv with ⟨k2, v⟩
    by_cases h : k2 = k
    · simpa [dictRemove, List.filter_cons, h] using ih
    · simpa [dictRemove, List.filter_cons, h, dictGet] using ih

theorem isOidB_convTop (v : BVal) : isOidB (convTop v) = false := by
  cases v <;> rfl

/-- Counterexample to C4 as stated: on a record holding identifiers
inside a nested sub-document and inside a list, the projection converts
only the popped _id; the identifiers nested one level down survive
unconverted (the loop in to_public_id only inspects top-level values). -/
theorem public_id_cex :
    to_public_id exDoc =
      [("owner", .doc [("_id", .oid 2)]), ("refs", .arr [.oid 3]),
        ("id", .str (oidString 1))] ∧
    oidFreeDict (to_public_id exDoc) = false :=
  ⟨rfl, rfl⟩

/-- C4 amended: when the record carries an internal identifier under
_id, the projection replaces it with the public string field id, and
every top-level value that is itself an identifier is converted to a
string; identifiers nested inside sub-documents or lists are not
converted. -/
theorem public_id_amended (d : List (String × BVal)) (n : Nat)
    (h : dictGet d "_id" = some (.oid n)) :
    dictGet (to_public_id d) "id" = some (.str (oidString n)) ∧
    dictGet (to_public_id d) "_id" = none ∧
    (∀ kv ∈ to_public_id d, isOidB kv.2 = false) := by
  have hne : d.isEmpty = false := by
    cases d with
    | nil => simp [dictGet] at h
    | cons kv t => rfl
  have hto : to_public_id d =
      (dictSet (dictRemove d "_id") "id" (.str (oidString n))).map
        (fun kv => (kv.1, convTop kv.2)) := by
    simp [to_public_id, hne, h, truthy, bvalStr]
  refine ⟨?_, ?_, ?_⟩
  · rw [hto, dictGet_map_conv, dictGet_dictSet_self]
    rfl
  · rw [hto, dictGet_map_conv, dictGet_dictSet_ne _ _ _ _ (by decide),
      dictGet_dictRemove_self]
    rfl
  · rw [hto]
    intro kv hkv
    rcases List.mem_map.mp hkv with ⟨kv0, _, rfl⟩
    exact isOidB_convTop kv0.2

/-! Length and chunking lemmas for pagination. -/

theorem length_insertLe (le : ProductDoc → ProductDoc → Bool) (a : ProductDoc)
    (l : List ProductDoc) : (insertLe le a l).length = l.length + 1 := by
  induction l with
  | nil => rfl
  | cons b t ih =>
    unfold insertLe
    split <;> simp [ih]

theorem length_insSort (le : ProductDoc → ProductDoc → Bool) (l : List ProductDoc) :
    (insSort le l).length = l.length := by
  induction l with
  | nil => rfl
  | cons a t ih => simp [insSort, length_insertLe, ih]

theorem length_applySort (sc : Option (String × Int)) (l : List ProductDoc) :
    (applySort sc l).length = l.length := by
  rcases sc with _ | ⟨f, dir⟩
  · rfl
  · simp [applySort, length_insSort]

theorem flatMap_chunks {α : Type} (L : Nat) (hL : 1 ≤ L) :
    ∀ (n : Nat) (l : List α), l.length ≤ n →
      (List.range (numPages l.length L)).flatMap (fun i => (l.drop (i * L)).take L) = l := by
  intro n
  induction n with
  | zero =>
    intro l h
    have hl : l = [] := List.eq_nil_of_length_eq_zero (Nat.le_zero.mp h)
    subst hl
    have hz : numPages 0 L = 0 := by
      unfold numPages
      exact Nat.div_eq_of_lt (by omega)
    simp [hz]
  | succ n ih =>
    intro l h
    cases l with
    | nil =>
      have hz : numPages 0 L = 0 := by
        unfold numPages
        exact Nat.div_eq_of_lt (by omega)
      simp [hz]
    | cons a t =>
      have hnp : numPages (a :: t).length L = (((a :: t).length - 1) / L) + 1 := by
        unfold numPages
        have h1 : (a :: t).length + L - 1 = ((a :: t).length - 1) + L := by
          simp only [List.length_cons]
          omega
        rw [h1, Nat.add_div_right _ (by omega)]
      rw [hnp, List.range_succ_eq_map, List.flatMap_cons, List.flatMap_map]
      have hshift : ∀ i : Nat,
          ((a :: t).drop ((i + 1) * L)).take L =
            (((a :: t).drop L).drop (i * L)).take L := by
        intro i
        rw [List.drop_drop]
        congr 2
        rw [Nat.succ_mul]
        omega
      have hlen : ((a :: t).drop L).length ≤ n := by
        rw [List.length_drop]
        simp only [List.length_cons] at h ⊢
        omega
      have hkk : numPages ((a :: t).drop L).length L = ((a :: t).length - 1) / L := by
        rw [List.length_drop]
        unfold numPages
        rcases le_or_lt L (a :: t).length with hLm | hLm
        · congr 1
          omega
        · have h1 : (a :: t).length - L = 0 := by omega
          have h2 : (a :: t).length - 1 < L := by
            simp only [List.length_cons] at hLm ⊢
            omega
          rw [h1]
          rw [Nat.div_eq_of_lt (by omega), Nat.div_eq_of_lt h2]
      have hIH := ih ((a :: t).drop L) hlen
      rw [hkk] at hIH
      simp only [Nat.zero_mul, List.drop_zero, hshift, hIH]
      exact List.take_append_drop L (a :: t)

theorem list_products_page_items (p : ListParams) (coll : List ProductDoc) (L i : Nat)
    (hL : 1 ≤ L) :
    (list_products { p with page := (i : Int) + 1, limit := (L : Int) } coll).items =
      (((applySort (sortClause p.sort)
          (coll.filter (fun d => matchesQ (build_query p) d))).drop (i * L)).take L).map
        toPublicDoc := by
  show (applyLimit (L : Int) ((applySort (sortClause p.sort)
      (coll.filter (fun d => matchesQ (build_query p) d))).drop
        (max 0 ((((i : Int) + 1) - 1) * (L : Int))).toNat)).map toPublicDoc = _
  have hskip : (max 0 ((((i : Int) + 1) - 1) * (L : Int))).toNat = i * L := by
    have h1 : (((i : Int) + 1) - 1) * (L : Int) = ((i * L : Nat) : Int) := by
      push_cast
      ring
    rw [h1]
    omega
  rw [hskip]
  unfold applyLimit
  rw [if_neg (by omega)]
  simp

/-- C2: for any fixed criteria and page size L at least 1, concatenating
the items of pages 1 through ceil(N over L), where N is the number of
matching records, reproduces exactly the full matched sequence in its
served order, each matching record once, none omitted. -/
theorem pagination_reconstructs (p : ListParams) (coll : List ProductDoc) (L : Nat)
    (hL : 1 ≤ L) :
    (List.range (numPages (coll.filter (fun d => matchesQ (build_query p) d)).length L)).flatMap
        (fun i =>
          (list_products { p with page := (i : Int) + 1, limit := (L : Int) } coll).items) =
      (applySort (sortClause p.sort) (coll.filter (fun d => matchesQ (build_query p) d))).map
        toPublicDoc := by
  have hpages : ∀ i : Nat,
      (list_products { p with page := (i : Int) + 1, limit := (L : Int) } coll).items =
        (((applySort (sortClause p.sort)
            (coll.filter (fun d => matchesQ (build_query p) d))).drop (i * L)).take L).map
          toPublicDoc :=
    fun i => list_products_page_items p coll L i hL
  simp only [hpages]
  rw [show (coll.filter (fun d => matchesQ (build_query p) d)).length =
      (applySort (sortClause p.sort)
        (coll.filter (fun d => matchesQ (build_query p) d))).length from
    (length_applySort _ _).symm]
  rw [← List.map_flatMap]
  rw [flatMap_chunks L hL _ _ (le_refl _)]

/-- Witness for C2: page size 2 over the three seeded records, pages 1
and 2 concatenated give back all three matched records. -/
theorem pagination_reconstructs_witness :
    1 ≤ 2 ∧
    (List.range (numPages ((sample_products.filter
          (fun d => matchesQ (build_query {}) d)).length) 2)).flatMap
        (fun i =>
          (list_products
            { ({} : ListParams) with page := (i : Int) + 1, limit := ((2 : Nat) : Int) }
            sample_products).items) =
      (applySort (sortClause (({} : ListParams)).sort)
          (sample_products.filter (fun d => matchesQ (build_query {}) d))).map toPublicDoc :=
  ⟨by decide, pagination_reconstructs {} sample_products 2 (by decide)⟩

/-- Witness for C4 amended: on the example record the projection yields
the public id string, drops _id, and leaves no top-level identifier. -/
theorem public_id_amended_witness :
    dictGet exDoc "_id" = some (.oid 1) ∧
    (dictGet (to_public_id exDoc) "id" = some (.str (oidString 1)) ∧
      dictGet (to_public_id exDoc) "_id" = none ∧
      (∀ kv ∈ to_public_id exDoc, isOidB kv.2 = false)) :=
  ⟨rfl, public_id_amended exDoc 1 rfl⟩
